import Mathlib

/-!
Verification of the trainer configuration-validation logic of this
repository (a Lightning-style ML training framework).  The repository
excerpt ships the test suite (`src/tests/tests_pytorch/trainer/
test_config_validator.py`) and a bug-report script; the validator
implementation itself (ConfigValidator / StrategyCompatibilityChecker)
is not part of the excerpt, so it is modelled here from the
specification (spec.md sections 3, 4.1, 4.2, 6, 7), faithful to the
spec wording, and checked against the behaviour the tests pin down.
-/

/-- Modelled from the spec: RunMode is the enum of run modes
`{FIT, VALIDATE, TEST, PREDICT}` selected per invocation (spec section 3). -/
inductive RunMode where
  | FIT
  | VALIDATE
  | TEST
  | PREDICT
  deriving DecidableEq, Repr

/-- Modelled from the spec: HookPresence is the tri-state describing a hook
of a model or datamodule instance: defined by the user, explicitly disabled
(set to none/null), or left not overridden (spec section 3). -/
inductive HookPresence where
  | DEFINED
  | EXPLICITLY_DISABLED
  | NOT_OVERRIDDEN
  deriving DecidableEq, Repr

/-- A hook counts as defined exactly when its presence is DEFINED. -/
def HookPresence.isDefined : HookPresence → Bool
  | .DEFINED => true
  | _ => false

/-- Modelled from the spec: the model-like object of section 6, exposing the
fixed hook vocabulary as HookPresence values, the `automatic_optimization`
flag, the `setup` method (none when not defined, otherwise whether its
signature has a `stage` parameter), and which batch-transfer hooks the user
has overridden from their defaults (spec sections 4.2 and 6). -/
structure LightningModule where
  train_dataloader : HookPresence
  val_dataloader : HookPresence
  test_dataloader : HookPresence
  predict_dataloader : HookPresence
  training_step : HookPresence
  validation_step : HookPresence
  test_step : HookPresence
  predict_step : HookPresence
  configure_optimizers : HookPresence
  forward : HookPresence
  automatic_optimization : Bool
  setup : Option Bool
  overrides_on_before_batch_transfer : Bool
  overrides_transfer_batch_to_device : Bool
  overrides_on_after_batch_transfer : Bool
  deriving DecidableEq, Repr

/-- Modelled from the spec: the optional data-module-like object exposing
the dataloader-family hooks plus `setup` (spec section 6). -/
structure LightningDataModule where
  train_dataloader : HookPresence
  val_dataloader : HookPresence
  test_dataloader : HookPresence
  predict_dataloader : HookPresence
  setup : Option Bool
  deriving DecidableEq, Repr

/-- Modelled from the spec: a registered callback; only its `setup` method
matters to validation (spec section 4.1, setup hook check). -/
structure Callback where
  setup : Option Bool
  deriving DecidableEq, Repr

/-- Modelled from the spec: the selected execution strategy/accelerator
family.  Data-parallel replication (the DP family) and fixed-pipeline
accelerators (the IPU family) restrict batch-transfer hook customization;
a plain single-device run does not (spec section 4.2). -/
inductive Strategy where
  | DataParallelReplication
  | FixedPipelineAccelerator
  | SingleDevice
  deriving DecidableEq, Repr

/-- The name of the strategy/accelerator family used in StrategyConfigError
messages (spec section 4.2). -/
def Strategy.familyName : Strategy → String
  | .DataParallelReplication => "DP"
  | .FixedPipelineAccelerator => "IPU"
  | .SingleDevice => ""

/-- Whether the strategy's rule table forbids overriding the
batch-transfer hooks (spec section 4.2). -/
def Strategy.restrictsBatchTransferHooks : Strategy → Bool
  | .DataParallelReplication => true
  | .FixedPipelineAccelerator => true
  | .SingleDevice => false

/-- Modelled from the spec: the run configuration of section 6:
mode, strategy/accelerator, whether `gradient_clip_val` is set, and the
`accumulate_grad_batches` count. -/
structure TrainerConfig where
  mode : RunMode
  strategy : Strategy
  gradient_clip_val_set : Bool
  accumulate_grad_batches : Nat
  deriving DecidableEq, Repr

/-- Modelled from the spec: the fatal error taxonomy of section 7:
ConfigError and StrategyConfigError, each carrying the user-facing
message string. -/
inductive ValidationError where
  | ConfigError (msg : String)
  | StrategyConfigError (msg : String)
  deriving DecidableEq, Repr

/-- Modelled from the spec: the non-fatal warning taxonomy of section 7:
ConfigWarning and PossibleUserMisconfigurationWarning. -/
inductive ValidationWarning where
  | ConfigWarning (msg : String)
  | PossibleUserMisconfigurationWarning (msg : String)
  deriving DecidableEq, Repr

/-- A dataloader-family hook is available when it is defined on the model
or on the datamodule, when one is attached (spec sections 4.1 and 6). -/
def hookAvailable (m : HookPresence) (dm : Option HookPresence) : Bool :=
  m.isDefined || (match dm with
    | some p => p.isDefined
    | none => false)

/-- Modelled from the spec: the FIT branch of ConfigValidator (spec
section 4.1): requires `train_dataloader`, `training_step` and
`configure_optimizers` defined, fail-fast in that order; on success emits
the val-loop warnings one at a time as encountered. -/
def ConfigValidator.checkFit (m : LightningModule) (dm : Option LightningDataModule) :
    Except ValidationError (List ValidationWarning) :=
  if !(hookAvailable m.train_dataloader (dm.map (fun d => d.train_dataloader))) then
    .error (.ConfigError "No `train_dataloader()` method defined.")
  else if !(m.training_step.isDefined) then
    .error (.ConfigError "No `training_step()` method defined.")
  else if !(m.configure_optimizers.isDefined) then
    .error (.ConfigError "No `configure_optimizers()` method defined.")
  else
    .ok
      ((if hookAvailable m.val_dataloader (dm.map (fun d => d.val_dataloader))
            && !(m.validation_step.isDefined) then
          [ValidationWarning.ConfigWarning
            "You passed in a `val_dataloader` but have no `validation_step`"]
        else [])
        ++
        (if m.validation_step.isDefined
            && !(hookAvailable m.val_dataloader (dm.map (fun d => d.val_dataloader))) then
          [ValidationWarning.PossibleUserMisconfigurationWarning
            "You defined a `validation_step` but have no `val_dataloader`"]
        else []))

/-- Modelled from the spec: the VALIDATE branch of ConfigValidator (spec
section 4.1): requires `val_dataloader` and `validation_step` defined,
fail-fast in that order. -/
def ConfigValidator.checkValidate (m : LightningModule) (dm : Option LightningDataModule) :
    Except ValidationError (List ValidationWarning) :=
  if !(hookAvailable m.val_dataloader (dm.map (fun d => d.val_dataloader))) then
    .error (.ConfigError "No `val_dataloader()` method defined")
  else if !(m.validation_step.isDefined) then
    .error (.ConfigError "No `validation_step()` method defined")
  else
    .ok []

/-- Modelled from the spec: the TEST branch of ConfigValidator (spec
section 4.1): requires `test_dataloader` and `test_step` defined,
fail-fast in that order. -/
def ConfigValidator.checkTest (m : LightningModule) (dm : Option LightningDataModule) :
    Except ValidationError (List ValidationWarning) :=
  if !(hookAvailable m.test_dataloader (dm.map (fun d => d.test_dataloader))) then
    .error (.ConfigError "No `test_dataloader()` method defined")
  else if !(m.test_step.isDefined) then
    .error (.ConfigError "No `test_step()` method defined")
  else
    .ok []

/-- Modelled from the spec: the PREDICT branch of ConfigValidator (spec
section 4.1): requires `predict_dataloader` defined, then `predict_step`
not explicitly disabled, then `forward` defined (the default predict_step
delegates to forward), fail-fast in exactly that order. -/
def ConfigValidator.checkPredict (m : LightningModule) (dm : Option LightningDataModule) :
    Except ValidationError (List ValidationWarning) :=
  if !(hookAvailable m.predict_dataloader (dm.map (fun d => d.predict_dataloader))) then
    .error (.ConfigError "No `predict_dataloader()` method defined")
  else if m.predict_step = HookPresence.EXPLICITLY_DISABLED then
    .error (.ConfigError "`predict_step` cannot be None.")
  else if !(m.forward.isDefined) then
    .error (.ConfigError "requires `forward` method to run.")
  else
    .ok []

/-- Modelled from the spec: the structural presence checks of
ConfigValidator, dispatched on the run mode (spec section 4.1). -/
def ConfigValidator.modeChecks (mode : RunMode) (m : LightningModule)
    (dm : Option LightningDataModule) :
    Except ValidationError (List ValidationWarning) :=
  match mode with
  | .FIT => ConfigValidator.checkFit m dm
  | .VALIDATE => ConfigValidator.checkValidate m dm
  | .TEST => ConfigValidator.checkTest m dm
  | .PREDICT => ConfigValidator.checkPredict m dm

/-- Modelled from the spec: the manual-optimization cross-check (spec
section 4.1): with `automatic_optimization = False`, a set
`gradient_clip_val` fails first, then `accumulate_grad_batches != 1`. -/
def ConfigValidator.manualOptimizationCheck (cfg : TrainerConfig) (m : LightningModule) :
    Option ValidationError :=
  if !m.automatic_optimization && cfg.gradient_clip_val_set then
    some (.ConfigError "Automatic gradient clipping is not supported with manual optimization")
  else if !m.automatic_optimization && cfg.accumulate_grad_batches != 1 then
    some (.ConfigError "Automatic gradient accumulation is not supported with manual optimization")
  else
    none

/-- A `setup` method is malformed when it is defined but its signature has
no `stage` parameter (spec section 4.1). -/
def setupLacksStage : Option Bool → Bool
  | some false => true
  | _ => false

/-- Modelled from the spec: the `setup(stage)` hook check (spec section
4.1): any of model, datamodule, or a registered callback defining a
`setup` method without a `stage` parameter is a ConfigError. -/
def ConfigValidator.setupCheck (m : LightningModule) (dm : Option LightningDataModule)
    (callbacks : List Callback) : Option ValidationError :=
  if setupLacksStage m.setup then
    some (.ConfigError "`LightningModule.setup` does not have a `stage` argument")
  else if (match dm with
      | some d => setupLacksStage d.setup
      | none => false) then
    some (.ConfigError "`LightningDataModule.setup` does not have a `stage` argument")
  else if callbacks.any (fun c => setupLacksStage c.setup) then
    some (.ConfigError "`Callback.setup` does not have a `stage` argument")
  else
    none

/-- The batch-transfer hooks the model has overridden from their defaults,
in the fixed order of the strategy-rule table (spec section 4.2). -/
def batchTransferHookOverrides (m : LightningModule) : List String :=
  (if m.overrides_on_before_batch_transfer then ["on_before_batch_transfer"] else [])
  ++ (if m.overrides_transfer_batch_to_device then ["transfer_batch_to_device"] else [])
  ++ (if m.overrides_on_after_batch_transfer then ["on_after_batch_transfer"] else [])

/-- Modelled from the spec: StrategyCompatibilityChecker (spec section
4.2): under a strategy whose rule table restricts batch-transfer hooks,
the first overridden hook fails with the StrategyConfigError message
naming the hook and the strategy/accelerator family. -/
def StrategyCompatibilityChecker.check (s : Strategy) (m : LightningModule) :
    Option ValidationError :=
  if s.restrictsBatchTransferHooks then
    match batchTransferHookOverrides m with
    | [] => none
    | hook :: _ =>
      some (.StrategyConfigError
        ("Overriding `" ++ hook ++ "` is not supported in " ++ s.familyName ++ " mode."))
  else
    none

/-- Modelled from the spec: the full validation pipeline run by the
trainer before a run (spec sections 2 and 4.1): the mode's structural
presence checks first, then the cross-field checks (manual optimization,
setup signature), then StrategyCompatibilityChecker; the first failing
check wins (fail-fast), and on success the collected warnings are
emitted. -/
def verify_loop_configurations (cfg : TrainerConfig) (m : LightningModule)
    (dm : Option LightningDataModule) (callbacks : List Callback) :
    Except ValidationError (List ValidationWarning) :=
  match ConfigValidator.modeChecks cfg.mode m dm with
  | .error e => .error e
  | .ok warnings =>
    match ConfigValidator.manualOptimizationCheck cfg m with
    | some e => .error e
    | none =>
      match ConfigValidator.setupCheck m dm callbacks with
      | some e => .error e
      | none =>
        match StrategyCompatibilityChecker.check cfg.strategy m with
        | some e => .error e
        | none => .ok warnings

/-- Modelled from the tests in src: the single public exception type; both
fatal error categories surface to the caller as MisconfigurationException
carrying only the message text
(src/tests/tests_pytorch/trainer/test_config_validator.py). -/
inductive PublicException where
  | MisconfigurationException (msg : String)
  deriving DecidableEq, Repr

/-- Modelled from the tests in src: how a fatal validation error is raised
at the public interface: the ConfigError/StrategyConfigError distinction
collapses to MisconfigurationException, keeping only the message. -/
def ValidationError.toPublic : ValidationError → PublicException
  | .ConfigError msg => .MisconfigurationException msg
  | .StrategyConfigError msg => .MisconfigurationException msg

/-- The validation pipeline as observed by a caller: fatal failures arrive
as PublicException values. -/
def run_validation (cfg : TrainerConfig) (m : LightningModule)
    (dm : Option LightningDataModule) (callbacks : List Callback) :
    Except PublicException (List ValidationWarning) :=
  match verify_loop_configurations cfg m dm callbacks with
  | .error e => .error e.toPublic
  | .ok warnings => .ok warnings

/-- A model with every hook of the vocabulary defined, automatic
optimization on, a well-formed `setup`, and no batch-transfer hook
overridden: the analogue of the test suite's BoringModel. -/
def completeModel : LightningModule where
  train_dataloader := .DEFINED
  val_dataloader := .DEFINED
  test_dataloader := .DEFINED
  predict_dataloader := .DEFINED
  training_step := .DEFINED
  validation_step := .DEFINED
  test_step := .DEFINED
  predict_step := .DEFINED
  configure_optimizers := .DEFINED
  forward := .DEFINED
  automatic_optimization := true
  setup := some true
  overrides_on_before_batch_transfer := false
  overrides_transfer_batch_to_device := false
  overrides_on_after_batch_transfer := false

/-- A datamodule with every dataloader hook defined and a well-formed
`setup`: the analogue of the test suite's BoringDataModule. -/
def boringDataModule : LightningDataModule where
  train_dataloader := .DEFINED
  val_dataloader := .DEFINED
  test_dataloader := .DEFINED
  predict_dataloader := .DEFINED
  setup := some true

/-- The default run configuration for a mode: single device, no gradient
clipping requested, no gradient accumulation. -/
def baseConfig (mode : RunMode) : TrainerConfig where
  mode := mode
  strategy := .SingleDevice
  gradient_clip_val_set := false
  accumulate_grad_batches := 1

/-- A model that has switched to manual optimization but is otherwise
complete, as in the manual-optimization test. -/
def manualOptModel : LightningModule :=
  { completeModel with automatic_optimization := false }

/-- C1: for every run mode (FIT, VALIDATE, TEST, PREDICT), a model with
every hook required for that mode passes validation without error, and a
model missing one of that mode's required hooks fails with the
mode-specific error message naming that hook. -/
theorem claim_C1_required_hooks_per_mode :
    verify_loop_configurations (baseConfig .FIT) completeModel none [] = .ok []
    ∧ verify_loop_configurations (baseConfig .VALIDATE) completeModel none [] = .ok []
    ∧ verify_loop_configurations (baseConfig .TEST) completeModel none [] = .ok []
    ∧ verify_loop_configurations (baseConfig .PREDICT) completeModel none [] = .ok []
    ∧ verify_loop_configurations (baseConfig .FIT)
        { completeModel with train_dataloader := .EXPLICITLY_DISABLED } none []
        = .error (.ConfigError "No `train_dataloader()` method defined.")
    ∧ verify_loop_configurations (baseConfig .FIT)
        { completeModel with training_step := .EXPLICITLY_DISABLED } none []
        = .error (.ConfigError "No `training_step()` method defined.")
    ∧ verify_loop_configurations (baseConfig .FIT)
        { completeModel with configure_optimizers := .EXPLICITLY_DISABLED } none []
        = .error (.ConfigError "No `configure_optimizers()` method defined.")
    ∧ verify_loop_configurations (baseConfig .VALIDATE)
        { completeModel with val_dataloader := .EXPLICITLY_DISABLED } none []
        = .error (.ConfigError "No `val_dataloader()` method defined")
    ∧ verify_loop_configurations (baseConfig .VALIDATE)
        { completeModel with validation_step := .EXPLICITLY_DISABLED } none []
        = .error (.ConfigError "No `validation_step()` method defined")
    ∧ verify_loop_configurations (baseConfig .TEST)
        { completeModel with test_dataloader := .EXPLICITLY_DISABLED } none []
        = .error (.ConfigError "No `test_dataloader()` method defined")
    ∧ verify_loop_configurations (baseConfig .TEST)
        { completeModel with test_step := .EXPLICITLY_DISABLED } none []
        = .error (.ConfigError "No `test_step()` method defined")
    ∧ verify_loop_configurations (baseConfig .PREDICT)
        { completeModel with predict_dataloader := .EXPLICITLY_DISABLED } none []
        = .error (.ConfigError "No `predict_dataloader()` method defined")
    ∧ verify_loop_configurations (baseConfig .PREDICT)
        { completeModel with predict_step := .EXPLICITLY_DISABLED } none []
        = .error (.ConfigError "`predict_step` cannot be None.")
    ∧ verify_loop_configurations (baseConfig .PREDICT)
        { completeModel with forward := .EXPLICITLY_DISABLED } none []
        = .error (.ConfigError "requires `forward` method to run.") :=
  ⟨rfl, rfl, rfl, rfl, rfl, rfl, rfl, rfl, rfl, rfl, rfl, rfl, rfl, rfl⟩

/-- C2: under FIT, explicitly disabling `train_dataloader`,
`training_step` or `configure_optimizers` fails with the corresponding
ConfigError message. -/
theorem claim_C2_fit_required_hooks :
    verify_loop_configurations (baseConfig .FIT)
        { completeModel with train_dataloader := .EXPLICITLY_DISABLED } none []
        = .error (.ConfigError "No `train_dataloader()` method defined.")
    ∧ verify_loop_configurations (baseConfig .FIT)
        { completeModel with training_step := .EXPLICITLY_DISABLED } none []
        = .error (.ConfigError "No `training_step()` method defined.")
    ∧ verify_loop_configurations (baseConfig .FIT)
        { completeModel with configure_optimizers := .EXPLICITLY_DISABLED } none []
        = .error (.ConfigError "No `configure_optimizers()` method defined.") :=
  ⟨rfl, rfl, rfl⟩

/-- C3: under PREDICT, a missing `predict_dataloader` (explicitly disabled
or never overridden) fails with the predict_dataloader message, an
explicitly disabled `predict_step` fails with the predict_step message,
and an undefined `forward` fails with the forward message. -/
theorem claim_C3_predict_required_hooks :
    verify_loop_configurations (baseConfig .PREDICT)
        { completeModel with predict_dataloader := .EXPLICITLY_DISABLED } none []
        = .error (.ConfigError "No `predict_dataloader()` method defined")
    ∧ verify_loop_configurations (baseConfig .PREDICT)
        { completeModel with predict_dataloader := .NOT_OVERRIDDEN } none []
        = .error (.ConfigError "No `predict_dataloader()` method defined")
    ∧ verify_loop_configurations (baseConfig .PREDICT)
        { completeModel with predict_step := .EXPLICITLY_DISABLED } none []
        = .error (.ConfigError "`predict_step` cannot be None.")
    ∧ verify_loop_configurations (baseConfig .PREDICT)
        { completeModel with forward := .EXPLICITLY_DISABLED } none []
        = .error (.ConfigError "requires `forward` method to run.")
    ∧ verify_loop_configurations (baseConfig .PREDICT)
        { completeModel with forward := .NOT_OVERRIDDEN } none []
        = .error (.ConfigError "requires `forward` method to run.") :=
  ⟨rfl, rfl, rfl, rfl, rfl⟩

/-- C4: under PREDICT, every model with `predict_dataloader` defined,
`predict_step` explicitly disabled and `forward` defined still fails, and
with the predict_step message rather than the forward message: the
predict_step check precedes the forward check in the fail-fast order,
whatever the rest of the model, datamodule and callbacks look like. -/
theorem claim_C4_predict_step_check_precedes_forward
    (m : LightningModule) (dm : Option LightningDataModule) (callbacks : List Callback)
    (h1 : m.predict_dataloader = HookPresence.DEFINED)
    (h2 : m.predict_step = HookPresence.EXPLICITLY_DISABLED)
    (h3 : m.forward = HookPresence.DEFINED) :
    verify_loop_configurations (baseConfig .PREDICT) m dm callbacks
      = .error (.ConfigError "`predict_step` cannot be None.") := by
  simp [verify_loop_configurations, ConfigValidator.modeChecks, ConfigValidator.checkPredict,
    hookAvailable, HookPresence.isDefined, baseConfig, h1, h2]

/-- Witness for C4 at a concrete model. -/
theorem claim_C4_witness :
    verify_loop_configurations (baseConfig .PREDICT)
        { completeModel with predict_step := .EXPLICITLY_DISABLED } none []
      = .error (.ConfigError "`predict_step` cannot be None.") :=
  claim_C4_predict_step_check_precedes_forward
    { completeModel with predict_step := .EXPLICITLY_DISABLED } none [] rfl rfl rfl

/-- C5: overriding any of the three batch-transfer hooks under the
data-parallel-replication strategy or the fixed-pipeline accelerator fails
with the StrategyConfigError naming the hook and the strategy/accelerator
family, while leaving the hooks at their defaults under the same
strategies passes. -/
theorem claim_C5_batch_transfer_hooks_strategy :
    verify_loop_configurations { baseConfig .FIT with strategy := .DataParallelReplication }
        { completeModel with overrides_on_before_batch_transfer := true } none []
        = .error (.StrategyConfigError
            "Overriding `on_before_batch_transfer` is not supported in DP mode.")
    ∧ verify_loop_configurations { baseConfig .FIT with strategy := .DataParallelReplication }
        { completeModel with overrides_transfer_batch_to_device := true } none []
        = .error (.StrategyConfigError
            "Overriding `transfer_batch_to_device` is not supported in DP mode.")
    ∧ verify_loop_configurations { baseConfig .FIT with strategy := .DataParallelReplication }
        { completeModel with overrides_on_after_batch_transfer := true } none []
        = .error (.StrategyConfigError
            "Overriding `on_after_batch_transfer` is not supported in DP mode.")
    ∧ verify_loop_configurations { baseConfig .FIT with strategy := .FixedPipelineAccelerator }
        { completeModel with overrides_on_before_batch_transfer := true } none []
        = .error (.StrategyConfigError
            "Overriding `on_before_batch_transfer` is not supported in IPU mode.")
    ∧ verify_loop_configurations { baseConfig .FIT with strategy := .FixedPipelineAccelerator }
        { completeModel with overrides_transfer_batch_to_device := true } none []
        = .error (.StrategyConfigError
            "Overriding `transfer_batch_to_device` is not supported in IPU mode.")
    ∧ verify_loop_configurations { baseConfig .FIT with strategy := .FixedPipelineAccelerator }
        { completeModel with overrides_on_after_batch_transfer := true } none []
        = .error (.StrategyConfigError
            "Overriding `on_after_batch_transfer` is not supported in IPU mode.")
    ∧ verify_loop_configurations { baseConfig .FIT with strategy := .DataParallelReplication }
        completeModel none [] = .ok []
    ∧ verify_loop_configurations { baseConfig .FIT with strategy := .FixedPipelineAccelerator }
        completeModel none [] = .ok [] :=
  ⟨rfl, rfl, rfl, rfl, rfl, rfl, rfl, rfl⟩

/-- C6: under FIT, disabling `validation_step` with `val_dataloader`
defined yields exactly one ConfigWarning about the missing validation
step; defining `validation_step` with no `val_dataloader` on the model
(and none on an attached datamodule either) yields the
PossibleUserMisconfigurationWarning; in all cases validation succeeds. -/
theorem claim_C6_fit_val_loop_warnings :
    verify_loop_configurations (baseConfig .FIT)
        { completeModel with validation_step := .EXPLICITLY_DISABLED } none []
        = .ok [ValidationWarning.ConfigWarning
            "You passed in a `val_dataloader` but have no `validation_step`"]
    ∧ verify_loop_configurations (baseConfig .FIT)
        { completeModel with val_dataloader := .EXPLICITLY_DISABLED } none []
        = .ok [ValidationWarning.PossibleUserMisconfigurationWarning
            "You defined a `validation_step` but have no `val_dataloader`"]
    ∧ verify_loop_configurations (baseConfig .FIT)
        { completeModel with val_dataloader := .EXPLICITLY_DISABLED }
        (some { boringDataModule with val_dataloader := .NOT_OVERRIDDEN }) []
        = .ok [ValidationWarning.PossibleUserMisconfigurationWarning
            "You defined a `validation_step` but have no `val_dataloader`"] :=
  ⟨rfl, rfl, rfl⟩

/-- C7: under FIT with manual optimization, a set `gradient_clip_val`
fails with the automatic-gradient-clipping message whatever the value of
`accumulate_grad_batches`, and `accumulate_grad_batches` different from 1
with no gradient clipping requested fails with the
automatic-gradient-accumulation message. -/
theorem claim_C7_manual_optimization :
    (∀ accum : Nat,
      verify_loop_configurations
          { mode := .FIT, strategy := .SingleDevice, gradient_clip_val_set := true,
            accumulate_grad_batches := accum } manualOptModel none []
        = .error (.ConfigError
            "Automatic gradient clipping is not supported with manual optimization"))
    ∧ (∀ accum : Nat, accum ≠ 1 →
      verify_loop_configurations
          { mode := .FIT, strategy := .SingleDevice, gradient_clip_val_set := false,
            accumulate_grad_batches := accum } manualOptModel none []
        = .error (.ConfigError
            "Automatic gradient accumulation is not supported with manual optimization")) := by
  constructor
  · intro accum
    rfl
  · intro accum h
    simp [verify_loop_configurations, ConfigValidator.modeChecks, ConfigValidator.checkFit,
      ConfigValidator.manualOptimizationCheck, hookAvailable, HookPresence.isDefined,
      manualOptModel, completeModel, h, bne_iff_ne]

/-- Witness for C7 at concrete accumulation counts. -/
theorem claim_C7_witness :
    verify_loop_configurations
        { mode := .FIT, strategy := .SingleDevice, gradient_clip_val_set := true,
          accumulate_grad_batches := 2 } manualOptModel none []
      = .error (.ConfigError
          "Automatic gradient clipping is not supported with manual optimization")
    ∧ verify_loop_configurations
        { mode := .FIT, strategy := .SingleDevice, gradient_clip_val_set := false,
          accumulate_grad_batches := 2 } manualOptModel none []
      = .error (.ConfigError
          "Automatic gradient accumulation is not supported with manual optimization") :=
  ⟨claim_C7_manual_optimization.1 2,
   claim_C7_manual_optimization.2 2 (by decide)⟩

/-- C8: a `setup` method without a `stage` parameter on the model, on the
datamodule, or on a registered callback each independently fails with a
ConfigError whose message contains "does not have a `stage` argument". -/
theorem claim_C8_setup_stage_argument :
    verify_loop_configurations (baseConfig .FIT)
        { completeModel with setup := some false } (some boringDataModule) []
        = .error (.ConfigError "`LightningModule.setup` does not have a `stage` argument")
    ∧ verify_loop_configurations (baseConfig .FIT)
        completeModel (some { boringDataModule with setup := some false }) []
        = .error (.ConfigError "`LightningDataModule.setup` does not have a `stage` argument")
    ∧ verify_loop_configurations (baseConfig .FIT)
        completeModel none [{ setup := some false }]
        = .error (.ConfigError "`Callback.setup` does not have a `stage` argument") :=
  ⟨rfl, rfl, rfl⟩

/-- C9: validation is deterministic and idempotent: for every (config,
model, datamodule, callbacks) input, running the validation pipeline a
second time on the unchanged input produces the same outcome, the inputs
being passed by value and never mutated in the embedding. -/
theorem claim_C9_deterministic_idempotent (cfg : TrainerConfig) (m : LightningModule)
    (dm : Option LightningDataModule) (callbacks : List Callback) :
    verify_loop_configurations cfg m dm callbacks
      = verify_loop_configurations cfg m dm callbacks :=
  rfl

/-- C10: every fatal validation failure reaches the caller as the single
public exception type MisconfigurationException; the
ConfigError/StrategyConfigError distinction is observable only through the
message text, as the five fatal failure families show at concrete
inputs. -/
theorem claim_C10_single_public_exception_type :
    (∀ e : ValidationError, ∃ msg : String,
      e.toPublic = PublicException.MisconfigurationException msg)
    ∧ run_validation (baseConfig .FIT)
        { completeModel with training_step := .EXPLICITLY_DISABLED } none []
        = .error (.MisconfigurationException "No `training_step()` method defined.")
    ∧ run_validation
        { mode := .FIT, strategy := .SingleDevice, gradient_clip_val_set := true,
          accumulate_grad_batches := 1 } manualOptModel none []
        = .error (.MisconfigurationException
            "Automatic gradient clipping is not supported with manual optimization")
    ∧ run_validation (baseConfig .FIT)
        { completeModel with setup := some false } none []
        = .error (.MisconfigurationException
            "`LightningModule.setup` does not have a `stage` argument")
    ∧ run_validation (baseConfig .PREDICT)
        { completeModel with forward := .EXPLICITLY_DISABLED } none []
        = .error (.MisconfigurationException "requires `forward` method to run.")
    ∧ run_validation { baseConfig .FIT with strategy := .DataParallelReplication }
        { completeModel with overrides_on_before_batch_transfer := true } none []
        = .error (.MisconfigurationException
            "Overriding `on_before_batch_transfer` is not supported in DP mode.") := by
  refine ⟨fun e => ?_, rfl, rfl, rfl, rfl, rfl⟩
  cases e <;> exact ⟨_, rfl⟩
